import Mathlib

/-!
Shallow embedding of the servicebay node agent
(src/src/lib/agent/v4/agent.py) together with proofs about the claims of
its specification.  Snapshots of the opaque state domains (containers,
services, volumes, files, proxy) are modelled by a type parameter with
decidable equality, matching the structural comparison Python performs
with the != operator; the resources snapshot is modelled concretely
because on_resource_tick inspects three of its fields.  External I/O
(the collectors, the clock, the subprocess layer, the filesystem) is
passed in explicitly as data, so every definition is executable.
-/

namespace ServiceBay

variable {σ : Type}

/-- The agent compares and republishes snapshots of the six state
domains by these JSON object keys. -/
def domainKeys : List String :=
  ["containers", "services", "volumes", "files", "resources", "proxy"]

/-- Model of the dict returned by get_sys_resources.  The fields the
agent reads by name are explicit; the remaining static or noisy
sub-objects (os, network, disks, cpu) do not influence any control flow
and are bundled into one opaque component so that structural equality of
two snapshots is still faithful. -/
structure SysResources where
  cpuUsage : ℚ
  memoryUsage : Int
  totalMemory : Int
  diskUsage : ℚ
  extra : Nat
  deriving DecidableEq

/-- The result field of a response envelope, covering the shapes the
command handlers actually produce. -/
inductive RespResult (σ : Type)
  | str (s : String)
  | containersList (v : σ)
  | servicesWrapped (v : σ)
  | execOut (code : Int) (stdout stderr : String)
  | fileContent (content : String)
  deriving DecidableEq

/-- Payload of one outbound envelope. -/
inductive OutPayload (σ : Type)
  | syncDomain (key : String) (snap : σ)
  | syncResources (r : SysResources)
  | syncInit
  | emptyObj
  | resp (id : Option String) (result : Option (RespResult σ)) (error : Option String)
  deriving DecidableEq

/-- One outbound message as written to stdout: the JSON object (type,
payload, and the optional timestamp field) plus the terminator bytes
appended after the JSON text. -/
structure OutMsg (σ : Type) where
  type : String
  payload : OutPayload σ
  timestamp : Option Int
  terminator : String
  deriving DecidableEq

/-- Agent.push_state: wraps a payload in an envelope carrying a
millisecond timestamp and writes it followed by a single NUL byte. -/
def push_state (now : Int) (msg_type : String) (payload : OutPayload σ) : OutMsg σ :=
  { type := msg_type, payload := payload, timestamp := some (now * 1000),
    terminator := "\x00" }

/-- The reply helper inside Agent.handle_command: a response envelope
with id, result and error fields, written followed by a single NUL
byte.  It carries no timestamp field. -/
def reply (req_id : Option String) (result : Option (RespResult σ))
    (error : Option String) : OutMsg σ :=
  { type := "response", payload := .resp req_id result error, timestamp := none,
    terminator := "\x00" }

/-- The mutable fields of Agent relevant to state synchronisation. -/
structure AgentSt (σ : Type) where
  containers : σ
  services : σ
  volumes : σ
  files : σ
  resources : Option SysResources
  proxy : σ
  last_resources : Option SysResources
  last_resource_push : Int
  monitoring_enabled : Bool
  resource_monitoring_high_freq : Bool
  scan_scheduled : Bool
  should_shutdown : Bool
  deriving DecidableEq

/-- The outcome of running sh -c command through the executor: either
the (stdout, stderr, returncode) triple, or a TimeoutError escaping to
the callers except-handler. -/
inductive ExecOutcome
  | result (stdout stderr : String) (code : Int)
  | timeout (msg : String)
  deriving DecidableEq

/-- The external world one rescan observes: the value each collector
returns for the current system state, the clock, and the outcome of a
shell execution.  Within one claim scenario the underlying system is
fixed, so each collector is a fixed value. -/
structure World (σ : Type) where
  fetch_containers : σ
  fetch_services : σ
  fetch_volumes : σ
  fetch_files : σ
  get_sys_resources : SysResources
  fetch_proxy_routes : σ
  exec_run : ExecOutcome
  now : Int
  deriving DecidableEq

/-- Agent.refresh_all: fetch every domain, overwrite the whole state,
and push one SYNC_PARTIAL per domain unconditionally, terminated by the
initialSyncComplete marker. -/
def refresh_all (w : World σ) (st : AgentSt σ) : AgentSt σ × List (OutMsg σ) :=
  let containers := w.fetch_containers
  let services := w.fetch_services
  let volumes := w.fetch_volumes
  let files := w.fetch_files
  let resources := w.get_sys_resources
  let proxy := w.fetch_proxy_routes
  ({ st with
      containers := containers, services := services, volumes := volumes,
      files := files, resources := some resources, proxy := proxy },
   [push_state w.now "SYNC_PARTIAL" (.syncDomain "containers" containers),
    push_state w.now "SYNC_PARTIAL" (.syncDomain "services" services),
    push_state w.now "SYNC_PARTIAL" (.syncDomain "volumes" volumes),
    push_state w.now "SYNC_PARTIAL" (.syncDomain "files" files),
    push_state w.now "SYNC_PARTIAL" (.syncDomain "proxy" proxy),
    push_state w.now "SYNC_PARTIAL" (.syncResources resources),
    push_state w.now "SYNC_PARTIAL" .syncInit])

/-- Agent._perform_delayed_scan: the debounced container-event rescan.
It clears the scheduled flag, fetches the four affected domains, and for
each one updates the store and pushes a SYNC_PARTIAL only if the fresh
snapshot differs structurally from the stored one.  The updates dict of
the source preserves insertion order (containers, volumes, services,
proxy), modelled as an ordered list of key/snapshot pairs. -/
def perform_delayed_scan [DecidableEq σ] (w : World σ) (st : AgentSt σ) :
    AgentSt σ × List (OutMsg σ) :=
  let st0 := { st with scan_scheduled := false }
  let new_containers := w.fetch_containers
  let new_volumes := w.fetch_volumes
  let new_services := w.fetch_services
  let new_proxy := w.fetch_proxy_routes
  let p1 : AgentSt σ × List (String × σ) :=
    if new_containers ≠ st0.containers then
      ({ st0 with containers := new_containers }, [("containers", new_containers)])
    else (st0, [])
  let p2 : AgentSt σ × List (String × σ) :=
    if new_volumes ≠ p1.1.volumes then
      ({ p1.1 with volumes := new_volumes }, p1.2 ++ [("volumes", new_volumes)])
    else p1
  let p3 : AgentSt σ × List (String × σ) :=
    if new_services ≠ p2.1.services then
      ({ p2.1 with services := new_services }, p2.2 ++ [("services", new_services)])
    else p2
  let p4 : AgentSt σ × List (String × σ) :=
    if new_proxy ≠ p3.1.proxy then
      ({ p3.1 with proxy := new_proxy }, p3.2 ++ [("proxy", new_proxy)])
    else p3
  (p4.1, p4.2.map fun kv => push_state w.now "SYNC_PARTIAL" (.syncDomain kv.1 kv.2))

/-- Agent._process_file_changes: the files domain is updated and pushed
unconditionally (the caller established that the files changed), then
services and proxy are refetched and each is pushed only if it differs
from the stored snapshot. -/
def process_file_changes [DecidableEq σ] (w : World σ) (st : AgentSt σ)
    (new_files : σ) : AgentSt σ × List (OutMsg σ) :=
  let st1 := { st with files := new_files }
  let out1 := [push_state w.now "SYNC_PARTIAL" (.syncDomain "files" new_files)]
  let new_services := w.fetch_services
  let p2 : AgentSt σ × List (OutMsg σ) :=
    if new_services ≠ st1.services then
      ({ st1 with services := new_services },
       out1 ++ [push_state w.now "SYNC_PARTIAL" (.syncDomain "services" new_services)])
    else (st1, out1)
  let new_proxy := w.fetch_proxy_routes
  if new_proxy ≠ p2.1.proxy then
    ({ p2.1 with proxy := new_proxy },
     p2.2 ++ [push_state w.now "SYNC_PARTIAL" (.syncDomain "proxy" new_proxy)])
  else p2

/-- The change test of Agent.on_resource_tick: the fresh sample counts
as changed when any of cpuUsage, memoryUsage or diskUsage differs from
the last published sample, or when nothing was published yet. -/
def resources_changed (new_resources : SysResources) :
    Option SysResources → Bool
  | none => true
  | some last =>
    if new_resources.cpuUsage ≠ last.cpuUsage then true
    else if new_resources.memoryUsage ≠ last.memoryUsage then true
    else if new_resources.diskUsage ≠ last.diskUsage then true
    else false

/-- Agent.on_resource_tick: publishing the resources domain is gated by
the monitoring flag (unless forced), by the adaptive minimum interval
(5 time-units in high-frequency mode, 60 otherwise; unless forced), and
by the change test (unless forced). -/
def on_resource_tick (w : World σ) (force : Bool) (st : AgentSt σ) :
    AgentSt σ × List (OutMsg σ) :=
  if !st.monitoring_enabled && !force then (st, [])
  else
    let now := w.now
    let interval : Int := if st.resource_monitoring_high_freq then 5 else 60
    if !force && decide (now - st.last_resource_push < interval) then (st, [])
    else
      let new_resources := w.get_sys_resources
      let has_changed := resources_changed new_resources st.last_resources
      if has_changed || force then
        ({ st with resources := some new_resources,
                   last_resources := some new_resources,
                   last_resource_push := now },
         [push_state now "SYNC_PARTIAL" (.syncResources new_resources)])
      else (st, [])

/-- Agent.on_heartbeat: a HEARTBEAT envelope with empty payload. -/
def on_heartbeat (w : World σ) : OutMsg σ :=
  push_state w.now "HEARTBEAT" .emptyObj

/-- True when the outbound message is a SYNC_PARTIAL style payload whose
single key is the given domain key. -/
def mentionsDomain (key : String) (m : OutMsg σ) : Bool :=
  match m.payload with
  | .syncDomain k _ => k = key
  | _ => false

/-- True when the outbound message carries the resources domain. -/
def mentionsResources (m : OutMsg σ) : Bool :=
  match m.payload with
  | .syncResources _ => true
  | _ => false

/-- os.path.dirname for POSIX paths: the prefix of the path up to and
including the last slash; if that prefix is nonempty and not made of
slashes only, trailing slashes are stripped. -/
def dirname (p : String) : String :=
  let head := (p.toList.reverse.dropWhile (fun c => c ≠ '/')).reverse
  if head ≠ [] ∧ head.any (fun c => c ≠ '/') then
    String.mk (head.reverse.dropWhile (fun c => c = '/')).reverse
  else String.mk head

/-- os.path.expanduser: a leading tilde shorthand for the home
directory is expanded; any other path is returned unchanged (as Python
does for an unknown user name after the tilde). -/
def expanduser (home p : String) : String :=
  if p = "~" then home
  else if p.toList.take 2 = ['~', '/'] then home ++ String.mk (p.toList.drop 1)
  else p

/-- The part of the host filesystem the file commands touch: the home
directory path, the set of existing directories, and the regular files
with their contents. -/
structure FS where
  home : String
  dirs : List String
  files : List (String × String)
  deriving DecidableEq

/-- Content of a regular file, when the path names one. -/
def FS.lookupFile (fs : FS) (p : String) : Option String :=
  match fs.files.find? (fun kv => kv.1 = p) with
  | some kv => some kv.2
  | none => none

/-- os.path.exists: the path names a regular file or a directory. -/
def FS.pathExists (fs : FS) (p : String) : Bool :=
  (fs.lookupFile p).isSome || fs.dirs.contains p

/-- Writing a file: replace the content if the path exists, append the
entry otherwise. -/
def FS.writeFileAt (fs : FS) (p c : String) : FS :=
  if (fs.files.find? (fun kv => kv.1 = p)).isSome then
    { fs with files := fs.files.map fun kv => if kv.1 = p then (p, c) else kv }
  else { fs with files := fs.files ++ [(p, c)] }

/-- The chain of directories os.makedirs creates: the directory itself
and each ancestor reached by iterating dirname, stopping at the empty
string or at a root made of slashes.  The fuel bounds the recursion;
dirname strictly shortens every other path, so length + 1 steps
suffice. -/
def dirChain : Nat → String → List String
  | 0, _ => []
  | fuel + 1, p =>
    if p = "" then []
    else if p.toList.all (fun c => c = '/') then [p]
    else p :: dirChain fuel (dirname p)

/-- os.makedirs(p, exist_ok=True): every missing directory on the chain
is created. -/
def FS.makedirs (fs : FS) (p : String) : FS :=
  { fs with
    dirs := fs.dirs ++ (dirChain (p.length + 1) p).filter fun d => ¬ fs.dirs.contains d }

/-- The payload fields the command handlers read.  A missing key is
none; payload.get(key, default) and Python truthiness are applied at
the use sites exactly as in the source. -/
structure CmdPayload where
  active : Option Bool := none
  command : Option String := none
  path : Option String := none
  content : Option String := none
  deriving DecidableEq

/-- One inbound command envelope as parsed from a stdin line. -/
structure CmdMsg where
  id : Option String := none
  action : Option String := none
  payload : CmdPayload := {}
  deriving DecidableEq

/-- Renders the action name inside the unknown-command error exactly as
the f-string str() conversion does. -/
def actionText : Option String → String
  | some s => s
  | none => "None"

/-- Agent.handle_command: dispatch one inbound envelope.  Every branch
ends in exactly one reply, except refresh, which only triggers the
unconditional full-refresh publishes.  The thread startMonitoring
spawns to run on_resource_tick(True) is serialised before the reply.
Exceptions raised inside a handler (a TimeoutError from the executor,
an OSError from the file operations) are caught and turned into an
error reply, matching the try/except around the dispatch. -/
def handle_command [DecidableEq σ] (w : World σ) (fs : FS) (st : AgentSt σ)
    (msg : CmdMsg) : AgentSt σ × FS × List (OutMsg σ) :=
  let cmd := msg.action
  let req_id := msg.id
  if cmd = some "ping" then
    (st, fs, [reply req_id (some (.str "pong")) none])
  else if cmd = some "shutdown" then
    ({ st with should_shutdown := true }, fs, [reply req_id (some (.str "ok")) none])
  else if cmd = some "listServices" then
    (st, fs, [reply req_id (some (.servicesWrapped st.services)) none])
  else if cmd = some "listContainers" then
    (st, fs, [reply req_id (some (.containersList st.containers)) none])
  else if cmd = some "refresh" then
    let r := refresh_all w st
    (r.1, fs, r.2)
  else if cmd = some "setResourceMode" then
    let active := msg.payload.active.getD false
    ({ st with
        resource_monitoring_high_freq := active,
        last_resource_push := if active then 0 else st.last_resource_push },
     fs, [reply req_id (some (.str "ok")) none])
  else if cmd = some "exec" then
    match msg.payload.command with
    | none => (st, fs, [reply req_id none (some "Missing command")])
    | some c =>
      if c = "" then (st, fs, [reply req_id none (some "Missing command")])
      else
        match w.exec_run with
        | .result stdout stderr code =>
          (st, fs, [reply req_id (some (.execOut code stdout stderr)) none])
        | .timeout m => (st, fs, [reply req_id none (some m)])
  else if cmd = some "write_file" then
    match msg.payload.path, msg.payload.content with
    | some p, some c =>
      if p = "" then (st, fs, [reply req_id none (some "Missing path or content")])
      else
        let expanded := expanduser fs.home p
        let d := dirname expanded
        if d = "" then
          (st, fs, [reply req_id none (some "No such file or directory: ")])
        else if fs.dirs.contains expanded then
          (st, fs.makedirs d,
           [reply req_id none (some ("Is a directory: " ++ expanded))])
        else
          (st, (fs.makedirs d).writeFileAt expanded c,
           [reply req_id (some (.str "ok")) none])
    | _, _ => (st, fs, [reply req_id none (some "Missing path or content")])
  else if cmd = some "read_file" then
    match msg.payload.path with
    | none => (st, fs, [reply req_id none (some "Missing path")])
    | some p =>
      if p = "" then (st, fs, [reply req_id none (some "Missing path")])
      else
        let expanded := expanduser fs.home p
        if ¬ fs.pathExists expanded then
          (st, fs, [reply req_id none (some ("File not found: " ++ p))])
        else
          match fs.lookupFile expanded with
          | some content => (st, fs, [reply req_id (some (.fileContent content)) none])
          | none => (st, fs, [reply req_id none (some ("Is a directory: " ++ expanded))])
  else if cmd = some "startMonitoring" then
    let st1 := { st with monitoring_enabled := true }
    let r := on_resource_tick w true st1
    (r.1, fs, r.2 ++ [reply req_id (some (.str "ok")) none])
  else if cmd = some "stopMonitoring" then
    ({ st with monitoring_enabled := false }, fs, [reply req_id (some (.str "ok")) none])
  else
    (st, fs, [reply req_id none (some ("Unknown command: " ++ actionText cmd))])

/-- What subprocess.run did with the spawned command: it completed with
a (possibly non-zero) exit code, it exceeded the timeout, the binary
was missing, or it failed in some other way. -/
inductive RunOutcome
  | completed (stdout stderr : String) (returncode : Int)
  | timedOut
  | fileNotFound
  | otherError (msg : String)
  deriving DecidableEq

/-- Rendering of the timeout value inside the TimeoutError message. -/
def renderTimeout : Option ℚ → String
  | some t => toString t
  | none => "None"

/-- CommandExecutor._execute_local.  A completed run returns the
stripped (stdout, stderr, returncode) triple; with check=True a
non-zero exit raises CalledProcessError, which the handler catches and
turns into the same triple, so the check flag does not change the
result.  A timeout raises TimeoutError, modelled as the error side of
Except and therefore distinct from every returned triple.  A missing
binary returns exit code 127 with a diagnostic on stderr; any other
exception returns exit code 1. -/
def execute_local (command : List String) (timeout : Option ℚ)
    (outcome : RunOutcome) : Except String (String × String × Int) :=
  match outcome with
  | .completed stdout stderr returncode => .ok (stdout.trim, stderr.trim, returncode)
  | .timedOut =>
    .error ("Command timed out after " ++ renderTimeout timeout ++ "s: "
            ++ " ".intercalate command)
  | .fileNotFound => .ok ("", "Binary not found: " ++ command.headD "", 127)
  | .otherError msg => .ok ("", msg, 1)

/-- A Python scalar appearing as a port number, port string or protocol
inside the container listing. -/
inductive PVal
  | int (n : Int)
  | str (s : String)
  deriving DecidableEq

/-- Python str() of such a scalar. -/
def PVal.pyStr : PVal → String
  | .int n => toString n
  | .str s => s

/-- Python truthiness of an optional scalar: None, 0 and the empty
string are falsy. -/
def pvTruthy : Option PVal → Bool
  | none => false
  | some (.int n) => n ≠ 0
  | some (.str s) => s ≠ ""

/-- Python `a or b` on optional scalars: b is returned as-is whenever a
is falsy. -/
def pyOr (a b : Option PVal) : Option PVal :=
  if pvTruthy a then a else b

/-- Python `a or dflt` with a literal default. -/
def pyOrVal (a : Option PVal) (dflt : PVal) : PVal :=
  match a with
  | some v => if pvTruthy (some v) then v else dflt
  | none => dflt

/-- Python str() of an optional scalar; None prints as the word None
inside the loose port comparison. -/
def pyStrOpt : Option PVal → String
  | none => "None"
  | some v => v.pyStr

/-- A port dict from the podman listing; a key the dict lacks is none.
The Type key of the JSON is spelled TypeKey here. -/
structure RecPort where
  hostPort : Option PVal := none
  host_port : Option PVal := none
  PublicPort : Option PVal := none
  containerPort : Option PVal := none
  container_port : Option PVal := none
  PrivatePort : Option PVal := none
  protocol : Option PVal := none
  TypeKey : Option PVal := none
  hostIp : Option PVal := none
  deriving DecidableEq

/-- One entry of the Ports list: some podman versions emit bare ints or
strings instead of dicts. -/
inductive RawPort
  | prim (v : PVal)
  | record (p : RecPort)
  deriving DecidableEq

/-- One port entry produced by get_host_ports_map from the ss socket
table: always a dict of these four fields. -/
structure DetPort where
  hostIp : String
  hostPort : Int
  containerPort : Int
  protocol : String
  deriving DecidableEq

/-- A mount entry, passed through to the snapshot untouched by
fetch_containers; the fields other collectors read are kept under both
key casings the source probes. -/
structure MountRec where
  TypeKey : Option String := none
  typeKey : Option String := none
  Name : Option String := none
  Source : Option String := none
  sourceKey : Option String := none
  Destination : Option String := none
  destinationKey : Option String := none
  deriving DecidableEq

/-- The Networks value of a podman container record: a list of network
names or a dict keyed by them, depending on the podman version. -/
inductive NetworksVal
  | list (xs : List String)
  | dict (keys : List String)
  deriving DecidableEq

/-- One container record as parsed from podman ps JSON output; a key
the record lacks is none, with the defaults the .get calls supply. -/
structure RawContainer where
  Id : Option String := none
  Names : List String := []
  Image : Option String := none
  IsInfra : Bool := false
  State : Option String := none
  Status : Option String := none
  Created : Option PVal := none
  Pid : Int := 0
  Ports : List RawPort := []
  Mounts : List MountRec := []
  Labels : List (String × String) := []
  Networks : NetworksVal := .list []
  Pod : Option String := none
  PodName : Option String := none
  deriving DecidableEq

/-- Substring test, as the Python `in` operator on strings: the
character list of the needle occurs contiguously in the haystack. -/
def containsSubstr (hay needle : String) : Bool :=
  decide (needle.toList <:+: hay.toList)

/-- str.endswith of Python: the suffix relation on the character
lists. -/
def strEndsWith (s suffix : String) : Bool :=
  decide (suffix.toList <:+ s.toList)

/-- str.lower of Python on the ASCII identifiers the agent meets. -/
def strLower (s : String) : String :=
  String.mk (s.toList.map Char.toLower)

/-- The infra filter of fetch_containers: the IsInfra flag, the
fallback check on the first name ending in -infra or _infra, and the
podman-pause image check, staged exactly as in the source so each later
check only fires when the earlier ones left the flag false. -/
def isInfraContainer (c : RawContainer) : Bool :=
  let names := c.Names
  let name := match names with | [] => "[]" | n :: _ => n
  let image := c.Image.getD ""
  let normalized_image := strLower image
  let is_infra0 := c.IsInfra
  let is_infra1 :=
    if ¬ is_infra0 ∧ (strEndsWith name "-infra" ∨ strEndsWith name "_infra") then true
    else is_infra0
  if ¬ is_infra1 ∧ containsSubstr normalized_image "podman-pause" then true
  else is_infra1

/-- Stable insertion of one element into a sorted list: placed before
the first element it is strictly below, hence after equal keys, which
preserves the stability of the Python sort being modelled. -/
def insertSortedBy (lt : α → α → Bool) (x : α) : List α → List α
  | [] => [x]
  | y :: ys => if lt x y then x :: y :: ys else y :: insertSortedBy lt x ys

/-- Stable sort by a strict comparison, modelling list.sort(key=...). -/
def sortByKey (lt : α → α → Bool) (l : List α) : List α :=
  l.foldl (fun acc x => insertSortedBy lt x acc) []

/-- The sort key (hostPort, protocol) of the detected-port list. -/
def detLt (a b : DetPort) : Bool :=
  decide (a.hostPort < b.hostPort ∨ (a.hostPort = b.hostPort ∧ a.protocol < b.protocol))

/-- Deduplication of the detected ports by the hostPort/protocol key
string, keeping first occurrences in order. -/
def dedupDetected (l : List DetPort) : List DetPort :=
  (l.foldl
    (fun acc dp =>
      let key := toString dp.hostPort ++ "/" ++ dp.protocol
      if acc.2.contains key then acc else (acc.1 ++ [dp], acc.2 ++ [key]))
    (([], []) : List DetPort × List String)).1

/-- A detected port as it is appended into the working ports list. -/
def detToRawPort (dp : DetPort) : RawPort :=
  .record { hostIp := some (.str dp.hostIp), hostPort := some (.int dp.hostPort),
            containerPort := some (.int dp.containerPort),
            protocol := some (.str dp.protocol) }

/-- The loose duplicate check of the merge loop: an existing port entry
matches the detected one when the stringified host ports agree and the
lowercased protocols agree.  Calling .get on a primitive entry raises
AttributeError, which nothing inside fetch_containers catches. -/
def already_have (dp : DetPort) : List RawPort → Except String Bool
  | [] => .ok false
  | .prim _ :: _ => .error "AttributeError: port entry is not a dict"
  | .record p :: rest =>
    let e_host := pyOr p.hostPort p.PublicPort
    let e_proto := pyOr p.protocol p.TypeKey
    if pyStrOpt e_host = toString dp.hostPort ∧
        strLower (pyStrOpt e_proto) = strLower dp.protocol then .ok true
    else already_have dp rest

/-- The merge loop: each detected port not already present is appended
to the working ports list. -/
def merge_detected (ports : List RawPort) : List DetPort → Except String (List RawPort)
  | [] => .ok ports
  | dp :: rest => do
    let already ← already_have dp ports
    merge_detected (if already then ports else ports ++ [detToRawPort dp]) rest

/-- A normalised port as shipped to the frontend: the hostPort,
containerPort and protocol keys only. -/
structure NormPort where
  hostPort : Option PVal
  containerPort : Option PVal
  protocol : PVal
  deriving DecidableEq

/-- The port normalisation at the end of the loop body: primitives
become symmetric tcp mappings; dicts are searched under the key
variants, defaulting the protocol to tcp, and dropped when neither a
host port nor a container port is present (present but falsy values
such as 0 still count as present). -/
def normalizePort (p : RawPort) : Option NormPort :=
  match p with
  | .prim v => some { hostPort := some v, containerPort := some v, protocol := .str "tcp" }
  | .record r =>
    let hp := pyOr (pyOr r.hostPort r.host_port) r.PublicPort
    let cp := pyOr (pyOr r.containerPort r.container_port) r.PrivatePort
    let proto := pyOrVal (pyOr r.protocol r.TypeKey) (.str "tcp")
    if hp ≠ none ∨ cp ≠ none then
      some { hostPort := hp, containerPort := cp, protocol := proto }
    else none

/-- One enriched container record as fetch_containers emits it. -/
structure EnrichedContainer where
  id : Option String
  names : List String
  image : String
  state : Option String
  status : Option String
  created : Option PVal
  ports : List NormPort
  mounts : List MountRec
  labels : List (String × String)
  networks : List String
  isHostNetwork : Bool
  podId : String
  podName : String
  isInfra : Bool
  pid : Int
  deriving DecidableEq

/-- The body of the fetch_containers loop for one container.  The infra
filter runs first and skips the container entirely; otherwise the
record is enriched with host-network detection, detected host ports and
normalised ports.  The externally gathered tables (host ports by pid,
process-tree descendants, pod names, network modes) are passed in as
functions of the system. -/
def enrich_one (host_ports_map : Int → List DetPort) (descendants : Int → List Int)
    (pod_name_map : String → Option String) (network_mode_map : String → Option String)
    (c : RawContainer) : Except String (Option EnrichedContainer) :=
  let is_infra := isInfraContainer c
  if is_infra then .ok none
  else
    let pid := c.Pid
    let ports := c.Ports
    let cid_full := c.Id.getD ""
    let netPair : List String × Bool :=
      match c.Networks with
      | .list xs => (xs, xs.contains "host")
      | .dict ks => (ks, ks.contains "host")
    let is_host_net :=
      if cid_full ≠ "" ∧ network_mode_map cid_full = some "host" then true else netPair.2
    let networks_list :=
      if is_host_net ∧ ¬ netPair.1.contains "host" then netPair.1 ++ ["host"]
      else netPair.1
    let pids_to_check := if pid > 0 then pid :: descendants pid else []
    let detected := (pids_to_check.map host_ports_map).flatten
    let portsWork : Except String (List RawPort) :=
      if detected ≠ [] then
        let unique_detected := dedupDetected (sortByKey detLt detected)
        if ports = [] then .ok (unique_detected.map detToRawPort)
        else merge_detected ports unique_detected
      else .ok ports
    match portsWork with
    | .error e => .error e
    | .ok ports2 =>
      let normalized_ports := ports2.filterMap normalizePort
      let podNameLookup :=
        match c.Id with
        | some i => (pod_name_map i).getD ""
        | none => ""
      let pod_name :=
        match c.PodName with
        | some pn => if pn ≠ "" then pn else podNameLookup
        | none => podNameLookup
      .ok (some
        { id := c.Id, names := c.Names, image := c.Image.getD "",
          state := c.State, status := c.Status, created := c.Created,
          ports := normalized_ports, mounts := c.Mounts, labels := c.Labels,
          networks := networks_list, isHostNetwork := is_host_net,
          podId := c.Pod.getD "", podName := pod_name,
          isInfra := is_infra, pid := pid })

/-- The fetch_containers loop over all parsed records, in listing
order; an uncaught exception in one iteration aborts the fetch. -/
def fetch_containers_loop (hm : Int → List DetPort) (ds : Int → List Int)
    (pn : String → Option String) (nm : String → Option String) :
    List RawContainer → Except String (List EnrichedContainer)
  | [] => .ok []
  | c :: rest =>
    match enrich_one hm ds pn nm c with
    | .error e => .error e
    | .ok r =>
      match fetch_containers_loop hm ds pn nm rest with
      | .error e => .error e
      | .ok tail =>
        match r with
        | some e => .ok (e :: tail)
        | none => .ok tail

/-- fetch_containers: enrich every non-infra container and sort the
result by id for a stable snapshot.  Podman supplies an Id for every
container; a missing id sorts as the empty string. -/
def fetch_containers (hm : Int → List DetPort) (ds : Int → List Int)
    (pn : String → Option String) (nm : String → Option String)
    (raw : List RawContainer) : Except String (List EnrichedContainer) :=
  match fetch_containers_loop hm ds pn nm raw with
  | .error e => .error e
  | .ok enriched =>
    .ok (sortByKey (fun a b => decide ((a.id.getD "") < (b.id.getD ""))) enriched)

/-- True when the outbound message is a response envelope. -/
def isResponse (m : OutMsg σ) : Bool :=
  m.type == "response"

/-! ### Concrete fixtures for witnesses and counterexamples

Snapshots are instantiated with natural numbers: all the engine does
with a snapshot is compare it structurally and ship it, so any type
with decidable equality exercises the code paths. -/

/-- A concrete resources sample. -/
def sampleRes : SysResources :=
  { cpuUsage := 10, memoryUsage := 1000, totalMemory := 2000, diskUsage := 50,
    extra := 0 }

/-- A concrete world: each collector returns a fixed snapshot. -/
def natWorld : World Nat :=
  { fetch_containers := 1, fetch_services := 2, fetch_volumes := 3,
    fetch_files := 4, get_sys_resources := sampleRes, fetch_proxy_routes := 5,
    exec_run := .result "out" "err" 0, now := 100 }

/-- A concrete initial agent state, as built by the constructor. -/
def st0 : AgentSt Nat :=
  { containers := 0, services := 0, volumes := 0, files := 0, resources := none,
    proxy := 0, last_resources := none, last_resource_push := 0,
    monitoring_enabled := false, resource_monitoring_high_freq := false,
    scan_scheduled := false, should_shutdown := false }

/-- A concrete filesystem with a home directory and no config files. -/
def fs0 : FS := { home := "/home/u", dirs := ["/home/u"], files := [] }

/-- Monitoring on, low-frequency mode, a resources sample published 10
time-units before the current clock with a different cpu value. -/
def st5 : AgentSt Nat :=
  { st0 with monitoring_enabled := true,
             last_resources := some { sampleRes with cpuUsage := 99 },
             last_resource_push := 90 }

/-- Monitoring on and the current resources sample already published,
so the change test fails on the next tick. -/
def st6 : AgentSt Nat :=
  { st0 with monitoring_enabled := true, last_resources := some sampleRes,
             last_resource_push := 37 }

/-- Monitoring on with nothing published yet. -/
def st6hf : AgentSt Nat := { st0 with monitoring_enabled := true }

/-- Stored proxy snapshot equal to what the proxy collector returns. -/
def st8 : AgentSt Nat := { st0 with proxy := 5 }

/-- The setResourceMode activation command. -/
def setModeMsg : CmdMsg :=
  { id := some "m1", action := some "setResourceMode", payload := { active := some true } }

/-- A pod infra container flagged only through its name suffix. -/
def rawInfraByName : RawContainer :=
  { Id := some "aaa", Names := ["mypod-infra"], Image := some "registry/pause:3" }

/-- A pause container flagged only through its image. -/
def rawInfraByImage : RawContainer :=
  { Id := some "bbb", Names := ["web"], Image := some "localhost/Podman-Pause:4" }

/-- A container with the IsInfra flag set. -/
def rawInfraByFlag : RawContainer :=
  { Id := some "ccc", Names := ["x"], IsInfra := true }

/-- An ordinary application container. -/
def rawNormal : RawContainer :=
  { Id := some "ddd", Names := ["nginx"], Image := some "docker.io/nginx" }

/-- Empty externally gathered port table. -/
def noPorts : Int → List DetPort := fun _ => []

/-- Empty process-tree descendants table. -/
def noKids : Int → List Int := fun _ => []

/-- Empty string-keyed lookup table. -/
def noStr : String → Option String := fun _ => none

/-! ### Helper lemmas on the shape of emitted messages -/

/-- Every message refresh_all emits is a SYNC_PARTIAL push. -/
theorem mem_refresh_all_out (w : World σ) (st : AgentSt σ) (m : OutMsg σ)
    (hm : m ∈ (refresh_all w st).2) :
    ∃ p, m = push_state w.now "SYNC_PARTIAL" p := by
  simp only [refresh_all, List.mem_cons, List.not_mem_nil, or_false] at hm
  casesm* _ ∨ _ <;> exact ⟨_, by assumption⟩

/-- Every message on_resource_tick emits is a SYNC_PARTIAL push. -/
theorem mem_on_resource_tick_out (w : World σ) (force : Bool) (st : AgentSt σ)
    (m : OutMsg σ) (hm : m ∈ (on_resource_tick w force st).2) :
    ∃ p, m = push_state w.now "SYNC_PARTIAL" p := by
  unfold on_resource_tick at hm
  dsimp only at hm
  split_ifs at hm <;>
    simp only [List.not_mem_nil, List.mem_singleton] at hm <;>
    exact ⟨_, hm⟩

/-- Every message the debounced rescan emits is a SYNC_PARTIAL push. -/
theorem mem_perform_delayed_scan_out [DecidableEq σ] (w : World σ) (st : AgentSt σ)
    (m : OutMsg σ) (hm : m ∈ (perform_delayed_scan w st).2) :
    ∃ p, m = push_state w.now "SYNC_PARTIAL" p := by
  simp only [perform_delayed_scan, List.mem_map] at hm
  obtain ⟨kv, _, rfl⟩ := hm
  exact ⟨_, rfl⟩

/-- Every message the file-change rescan emits is a SYNC_PARTIAL push. -/
theorem mem_process_file_changes_out [DecidableEq σ] (w : World σ) (st : AgentSt σ)
    (nf : σ) (m : OutMsg σ) (hm : m ∈ (process_file_changes w st nf).2) :
    ∃ p, m = push_state w.now "SYNC_PARTIAL" p := by
  unfold process_file_changes at hm
  dsimp only at hm
  split_ifs at hm <;>
    simp only [List.mem_append, List.mem_cons, List.not_mem_nil, or_false,
      false_or, List.mem_singleton] at hm
  all_goals try casesm* _ ∨ _
  all_goals exact ⟨_, by assumption⟩

/-- A list of SYNC_PARTIAL pushes holds no response envelope. -/
theorem countP_isResponse_eq_zero (t : Int) (l : List (OutMsg σ))
    (h : ∀ m ∈ l, ∃ p, m = push_state t "SYNC_PARTIAL" p) :
    l.countP isResponse = 0 := by
  rw [List.countP_eq_zero]
  intro m hm
  obtain ⟨p, rfl⟩ := h m hm
  simp [isResponse, push_state]

/-- The dispatch always produces either the refresh publishes alone, or
some SYNC_PARTIAL pushes followed by exactly one reply carrying the
inbound id. -/
theorem handle_command_out_shape [DecidableEq σ] (w : World σ) (fs : FS)
    (st : AgentSt σ) (msg : CmdMsg) :
    (msg.action = some "refresh" ∧
      (handle_command w fs st msg).2.2 = (refresh_all w st).2) ∨
    (∃ pushes r e,
      (handle_command w fs st msg).2.2 = pushes ++ [reply msg.id r e] ∧
      msg.action ≠ some "refresh" ∧
      ∀ m ∈ pushes, ∃ p, m = push_state w.now "SYNC_PARTIAL" p) := by
  by_cases h1 : msg.action = some "ping"
  · exact Or.inr ⟨[], some (.str "pong"), none,
      by simp [handle_command, h1], by simp [h1], by simp⟩
  by_cases h2 : msg.action = some "shutdown"
  · exact Or.inr ⟨[], some (.str "ok"), none,
      by simp [handle_command, h1, h2], by simp [h2], by simp⟩
  by_cases h3 : msg.action = some "listServices"
  · exact Or.inr ⟨[], some (.servicesWrapped st.services), none,
      by simp [handle_command, h1, h2, h3], by simp [h3], by simp⟩
  by_cases h4 : msg.action = some "listContainers"
  · exact Or.inr ⟨[], some (.containersList st.containers), none,
      by simp [handle_command, h1, h2, h3, h4], by simp [h4], by simp⟩
  by_cases h5 : msg.action = some "refresh"
  · exact Or.inl ⟨h5, by simp [handle_command, h1, h2, h3, h4, h5]⟩
  by_cases h6 : msg.action = some "setResourceMode"
  · exact Or.inr ⟨[], some (.str "ok"), none,
      by simp [handle_command, h1, h2, h3, h4, h5, h6], h5, by simp⟩
  by_cases h7 : msg.action = some "exec"
  · rcases hc : msg.payload.command with _ | c
    · exact Or.inr ⟨[], none, some "Missing command",
        by simp [handle_command, h1, h2, h3, h4, h5, h6, h7, hc], h5, by simp⟩
    by_cases hce : c = ""
    · exact Or.inr ⟨[], none, some "Missing command",
        by simp [handle_command, h1, h2, h3, h4, h5, h6, h7, hc, hce], h5, by simp⟩
    rcases hw : w.exec_run with ⟨o, er, code⟩ | tm
    · exact Or.inr ⟨[], some (.execOut code o er), none,
        by simp [handle_command, h1, h2, h3, h4, h5, h6, h7, hc, hce, hw], h5, by simp⟩
    · exact Or.inr ⟨[], none, some tm,
        by simp [handle_command, h1, h2, h3, h4, h5, h6, h7, hc, hce, hw], h5, by simp⟩
  by_cases h8 : msg.action = some "write_file"
  · rcases hp : msg.payload.path with _ | p <;> rcases hcn : msg.payload.content with _ | cn
    · exact Or.inr ⟨[], none, some "Missing path or content",
        by simp [handle_command, h1, h2, h3, h4, h5, h6, h7, h8, hp, hcn], h5, by simp⟩
    · exact Or.inr ⟨[], none, some "Missing path or content",
        by simp [handle_command, h1, h2, h3, h4, h5, h6, h7, h8, hp, hcn], h5, by simp⟩
    · exact Or.inr ⟨[], none, some "Missing path or content",
        by simp [handle_command, h1, h2, h3, h4, h5, h6, h7, h8, hp, hcn], h5, by simp⟩
    by_cases hp0 : p = ""
    · exact Or.inr ⟨[], none, some "Missing path or content",
        by simp [handle_command, h1, h2, h3, h4, h5, h6, h7, h8, hp, hcn, hp0], h5, by simp⟩
    by_cases hd0 : dirname (expanduser fs.home p) = ""
    · exact Or.inr ⟨[], none, some "No such file or directory: ",
        by simp [handle_command, h1, h2, h3, h4, h5, h6, h7, h8, hp, hcn, hp0, hd0],
        h5, by simp⟩
    by_cases hdir : expanduser fs.home p ∈ fs.dirs
    · exact Or.inr ⟨[], none, some ("Is a directory: " ++ expanduser fs.home p),
        by simp [handle_command, h1, h2, h3, h4, h5, h6, h7, h8, hp, hcn, hp0, hd0, hdir],
        h5, by simp⟩
    · exact Or.inr ⟨[], some (.str "ok"), none,
        by simp [handle_command, h1, h2, h3, h4, h5, h6, h7, h8, hp, hcn, hp0, hd0, hdir],
        h5, by simp⟩
  by_cases h9 : msg.action = some "read_file"
  · rcases hp : msg.payload.path with _ | p
    · exact Or.inr ⟨[], none, some "Missing path",
        by simp [handle_command, h1, h2, h3, h4, h5, h6, h7, h8, h9, hp], h5, by simp⟩
    by_cases hp0 : p = ""
    · exact Or.inr ⟨[], none, some "Missing path",
        by simp [handle_command, h1, h2, h3, h4, h5, h6, h7, h8, h9, hp, hp0], h5, by simp⟩
    by_cases hex : fs.pathExists (expanduser fs.home p)
    · rcases hlf : fs.lookupFile (expanduser fs.home p) with _ | content
      · exact Or.inr ⟨[], none, some ("Is a directory: " ++ expanduser fs.home p),
          by simp [handle_command, h1, h2, h3, h4, h5, h6, h7, h8, h9, hp, hp0, hex, hlf],
          h5, by simp⟩
      · exact Or.inr ⟨[], some (.fileContent content), none,
          by simp [handle_command, h1, h2, h3, h4, h5, h6, h7, h8, h9, hp, hp0, hex, hlf],
          h5, by simp⟩
    · exact Or.inr ⟨[], none, some ("File not found: " ++ p),
        by simp [handle_command, h1, h2, h3, h4, h5, h6, h7, h8, h9, hp, hp0, hex],
        h5, by simp⟩
  by_cases h10 : msg.action = some "startMonitoring"
  · exact Or.inr ⟨(on_resource_tick w true { st with monitoring_enabled := true }).2,
      some (.str "ok"), none,
      by simp [handle_command, h1, h2, h3, h4, h5, h6, h7, h8, h9, h10], h5,
      fun m hm => mem_on_resource_tick_out _ _ _ _ hm⟩
  by_cases h11 : msg.action = some "stopMonitoring"
  · exact Or.inr ⟨[], some (.str "ok"), none,
      by simp [handle_command, h1, h2, h3, h4, h5, h6, h7, h8, h9, h10, h11], h5, by simp⟩
  · exact Or.inr ⟨[], none, some ("Unknown command: " ++ actionText msg.action),
      by simp [handle_command, h1, h2, h3, h4, h5, h6, h7, h8, h9, h10, h11], h5, by simp⟩

/-- Every message the dispatch emits is a reply carrying the inbound id
or a SYNC_PARTIAL push. -/
theorem mem_handle_command_out [DecidableEq σ] (w : World σ) (fs : FS)
    (st : AgentSt σ) (msg : CmdMsg) (m : OutMsg σ)
    (hm : m ∈ (handle_command w fs st msg).2.2) :
    (∃ r e, m = reply msg.id r e) ∨ (∃ p, m = push_state w.now "SYNC_PARTIAL" p) := by
  rcases handle_command_out_shape w fs st msg with ⟨_, hout⟩ | ⟨pushes, r, e, hout, _, hp⟩
  · rw [hout] at hm
    exact Or.inr (mem_refresh_all_out w st m hm)
  · rw [hout] at hm
    rcases List.mem_append.mp hm with h | h
    · exact Or.inr (hp m h)
    · simp only [List.mem_singleton] at h
      exact Or.inl ⟨_, _, h⟩

/-! ### Helper lemmas on the filesystem model -/

/-- Updating an existing entry makes the lookup return the new content. -/
theorem find_map_set (l : List (String × String)) (p c : String)
    (h : (l.find? fun kv => kv.1 = p).isSome = true) :
    ((l.map fun kv => if kv.1 = p then (p, c) else kv).find? fun kv => kv.1 = p)
      = some (p, c) := by
  induction l with
  | nil => simp at h
  | cons kv t ih =>
    by_cases hk : kv.1 = p
    · simp [hk]
    · have hkb : (decide (kv.1 = p)) = false := by simp [hk]
      simp only [List.map_cons, if_neg hk, List.find?_cons, hkb] at h ⊢
      exact ih h

/-- After writeFileAt, looking the path up returns the new content. -/
theorem lookupFile_writeFileAt (fs : FS) (p c : String) :
    (fs.writeFileAt p c).lookupFile p = some c := by
  unfold FS.writeFileAt FS.lookupFile
  by_cases h : (fs.files.find? fun kv => kv.1 = p).isSome
  · simp only [h, if_true, find_map_set fs.files p c h]
  · simp only [h, Bool.false_eq_true, if_false]
    rw [List.find?_append, Option.not_isSome_iff_eq_none.mp h]
    simp

/-- writeFileAt leaves the directory set unchanged. -/
theorem dirs_writeFileAt (fs : FS) (p c : String) :
    (fs.writeFileAt p c).dirs = fs.dirs := by
  unfold FS.writeFileAt
  split_ifs <;> rfl

/-- A nonempty path is on its own makedirs chain. -/
theorem self_mem_dirChain (p : String) (hp : p ≠ "") :
    p ∈ dirChain (p.length + 1) p := by
  unfold dirChain
  split_ifs with h0 h1
  · exact absurd h0 hp
  · simp
  · simp

/-- makedirs creates the requested directory. -/
theorem mem_dirs_makedirs (fs : FS) (d : String) (hd : d ≠ "") :
    d ∈ (fs.makedirs d).dirs := by
  unfold FS.makedirs
  by_cases h : d ∈ fs.dirs
  · exact List.mem_append_left _ h
  · refine List.mem_append_right _ ?_
    rw [List.mem_filter]
    exact ⟨self_mem_dirChain d hd, by simp [h]⟩

/-- The fixed prefix of the read_file error message contains the words
the spec promises. -/
theorem not_found_substring (q : String) :
    containsSubstr ("File not found: " ++ q) "not found" = true := by
  unfold containsSubstr
  rw [decide_eq_true_eq]
  have h1 : "not found".toList <:+: "File not found: ".toList := by decide
  have h2 : "File not found: ".toList <+: ("File not found: " ++ q).toList :=
    ⟨q.toList, rfl⟩
  exact h1.trans h2.isInfix

/-! ### Claims -/

/-- C1 counterexample: with an unchanged world, the second refresh_all
emits seven further SyncEnvelopes (one per domain plus the
initialSyncComplete marker), not zero. -/
theorem refresh_all_second_emits_again_cex :
    (refresh_all natWorld (refresh_all natWorld st0).1).2.length = 7 ∧
    (refresh_all natWorld (refresh_all natWorld st0).1).2 ≠ [] := by
  constructor
  · rfl
  · decide

/-- C1 (amended): refresh_all is unconditional, so a second call under
an unchanged system leaves the state fixed and re-emits exactly the
same seven envelopes as the first call, rather than zero. -/
theorem refresh_all_republishes_all_domains (w : World σ) (st : AgentSt σ) :
    (refresh_all w (refresh_all w st).1).2 = (refresh_all w st).2 ∧
    (refresh_all w (refresh_all w st).1).1 = (refresh_all w st).1 ∧
    (refresh_all w st).2.length = 7 :=
  ⟨rfl, rfl, rfl⟩

/-- C2: in the debounced container-event rescan, each of the four
domains containers, volumes, services and proxy is left untouched and
unpublished when the fresh snapshot equals the stored one, and is
stored and published in exactly one SYNC_PARTIAL envelope carrying the
fresh snapshot when it differs. -/
theorem perform_delayed_scan_change_only [DecidableEq σ] (w : World σ) (st : AgentSt σ) :
    ((w.fetch_containers = st.containers →
        (perform_delayed_scan w st).1.containers = st.containers ∧
        (perform_delayed_scan w st).2.countP (mentionsDomain "containers") = 0) ∧
      (w.fetch_containers ≠ st.containers →
        (perform_delayed_scan w st).1.containers = w.fetch_containers ∧
        (perform_delayed_scan w st).2.countP (mentionsDomain "containers") = 1 ∧
        push_state w.now "SYNC_PARTIAL" (.syncDomain "containers" w.fetch_containers)
          ∈ (perform_delayed_scan w st).2)) ∧
    ((w.fetch_volumes = st.volumes →
        (perform_delayed_scan w st).1.volumes = st.volumes ∧
        (perform_delayed_scan w st).2.countP (mentionsDomain "volumes") = 0) ∧
      (w.fetch_volumes ≠ st.volumes →
        (perform_delayed_scan w st).1.volumes = w.fetch_volumes ∧
        (perform_delayed_scan w st).2.countP (mentionsDomain "volumes") = 1 ∧
        push_state w.now "SYNC_PARTIAL" (.syncDomain "volumes" w.fetch_volumes)
          ∈ (perform_delayed_scan w st).2)) ∧
    ((w.fetch_services = st.services →
        (perform_delayed_scan w st).1.services = st.services ∧
        (perform_delayed_scan w st).2.countP (mentionsDomain "services") = 0) ∧
      (w.fetch_services ≠ st.services →
        (perform_delayed_scan w st).1.services = w.fetch_services ∧
        (perform_delayed_scan w st).2.countP (mentionsDomain "services") = 1 ∧
        push_state w.now "SYNC_PARTIAL" (.syncDomain "services" w.fetch_services)
          ∈ (perform_delayed_scan w st).2)) ∧
    ((w.fetch_proxy_routes = st.proxy →
        (perform_delayed_scan w st).1.proxy = st.proxy ∧
        (perform_delayed_scan w st).2.countP (mentionsDomain "proxy") = 0) ∧
      (w.fetch_proxy_routes ≠ st.proxy →
        (perform_delayed_scan w st).1.proxy = w.fetch_proxy_routes ∧
        (perform_delayed_scan w st).2.countP (mentionsDomain "proxy") = 1 ∧
        push_state w.now "SYNC_PARTIAL" (.syncDomain "proxy" w.fetch_proxy_routes)
          ∈ (perform_delayed_scan w st).2)) := by
  by_cases hc : w.fetch_containers = st.containers <;>
    by_cases hv : w.fetch_volumes = st.volumes <;>
      by_cases hs : w.fetch_services = st.services <;>
        by_cases hp : w.fetch_proxy_routes = st.proxy <;>
          simp [perform_delayed_scan, hc, hv, hs, hp, mentionsDomain, push_state,
            List.countP_append, List.countP_cons]

/-- C2 witness: at the concrete world and initial state every domain
differs, so each of the four domains is pushed exactly once. -/
theorem perform_delayed_scan_change_only_witness :
    (perform_delayed_scan natWorld st0).2.countP (mentionsDomain "containers") = 1 ∧
    (perform_delayed_scan natWorld st0).2.countP (mentionsDomain "proxy") = 1 :=
  ⟨((perform_delayed_scan_change_only natWorld st0).1.2 (by decide)).2.1,
   ((perform_delayed_scan_change_only natWorld st0).2.2.2.2 (by decide)).2.1⟩

/-- C3 counterexample: the response envelope to a ping is NUL
terminated but carries no timestamp field. -/
theorem response_missing_timestamp_cex :
    ((handle_command natWorld fs0 st0 { id := some "1", action := some "ping" }).2.2.map
        (fun m => m.timestamp)) = [none] ∧
    ((handle_command natWorld fs0 st0 { id := some "1", action := some "ping" }).2.2.map
        (fun m => m.terminator)) = ["\x00"] := by decide

/-- C3 (amended): every outbound envelope is written followed by a
single NUL byte; the SYNC_PARTIAL and HEARTBEAT envelopes carry the
millisecond timestamp, while response envelopes carry no timestamp
field. -/
theorem outbound_envelope_framing [DecidableEq σ] (w : World σ) (fs : FS)
    (st : AgentSt σ) (msg : CmdMsg) (force : Bool) (nf : σ) :
    (∀ m ∈ (handle_command w fs st msg).2.2,
        m.terminator = "\x00" ∧
        (m.type = "response" → m.timestamp = none) ∧
        (m.type ≠ "response" → m.timestamp = some (w.now * 1000))) ∧
    (∀ m ∈ (refresh_all w st).2,
        m.terminator = "\x00" ∧ m.timestamp = some (w.now * 1000)) ∧
    (∀ m ∈ (perform_delayed_scan w st).2,
        m.terminator = "\x00" ∧ m.timestamp = some (w.now * 1000)) ∧
    (∀ m ∈ (on_resource_tick w force st).2,
        m.terminator = "\x00" ∧ m.timestamp = some (w.now * 1000)) ∧
    (∀ m ∈ (process_file_changes w st nf).2,
        m.terminator = "\x00" ∧ m.timestamp = some (w.now * 1000)) ∧
    ((on_heartbeat w : OutMsg σ).terminator = "\x00" ∧
        (on_heartbeat w : OutMsg σ).timestamp = some (w.now * 1000)) := by
  refine ⟨?_, ?_, ?_, ?_, ?_, rfl, rfl⟩
  · intro m hm
    rcases mem_handle_command_out w fs st msg m hm with ⟨r, e, rfl⟩ | ⟨p, rfl⟩
    · exact ⟨rfl, fun _ => rfl, fun h => absurd rfl h⟩
    · exact ⟨rfl, fun h => by simp [push_state] at h, fun _ => rfl⟩
  · intro m hm
    obtain ⟨p, rfl⟩ := mem_refresh_all_out w st m hm
    exact ⟨rfl, rfl⟩
  · intro m hm
    obtain ⟨p, rfl⟩ := mem_perform_delayed_scan_out w st m hm
    exact ⟨rfl, rfl⟩
  · intro m hm
    obtain ⟨p, rfl⟩ := mem_on_resource_tick_out w force st m hm
    exact ⟨rfl, rfl⟩
  · intro m hm
    obtain ⟨p, rfl⟩ := mem_process_file_changes_out w st nf m hm
    exact ⟨rfl, rfl⟩

/-- C3 witness: a containers push of the concrete first refresh is NUL
terminated and timestamped. -/
theorem outbound_envelope_framing_witness :
    (push_state natWorld.now "SYNC_PARTIAL"
        (OutPayload.syncDomain "containers" natWorld.fetch_containers)).terminator
      = "\x00" ∧
    (push_state natWorld.now "SYNC_PARTIAL"
        (OutPayload.syncDomain "containers" natWorld.fetch_containers)).timestamp
      = some (natWorld.now * 1000) :=
  (outbound_envelope_framing natWorld fs0 st0
      { id := some "1", action := some "ping" } false (0 : Nat)).2.1
    (push_state natWorld.now "SYNC_PARTIAL"
      (OutPayload.syncDomain "containers" natWorld.fetch_containers)) (by decide)

/-- C4 counterexample: the shutdown command does produce a response
envelope (its ok reply), contradicting the exception for shutdown. -/
theorem shutdown_yields_response_cex :
    ((handle_command natWorld fs0 st0
        { id := some "7", action := some "shutdown" }).2.2.countP isResponse) = 1 ∧
    (handle_command natWorld fs0 st0 { id := some "7", action := some "shutdown" }).2.2
      = [reply (some "7") (some (.str "ok")) none] := by decide

/-- C4 (amended): every inbound command envelope yields exactly one
response envelope whose payload id matches the inbound id, except
refresh, which yields none; shutdown replies like any other command. -/
theorem command_response_correlation [DecidableEq σ] (w : World σ) (fs : FS)
    (st : AgentSt σ) (msg : CmdMsg) :
    ((handle_command w fs st msg).2.2.countP isResponse
        = if msg.action = some "refresh" then 0 else 1) ∧
    (∀ m ∈ (handle_command w fs st msg).2.2, isResponse m = true →
        ∃ r e, m.payload = .resp msg.id r e) := by
  constructor
  · rcases handle_command_out_shape w fs st msg with ⟨ha, hout⟩ | ⟨pushes, r, e, hout, hne, hp⟩
    · rw [hout, if_pos ha]
      exact countP_isResponse_eq_zero w.now _ (mem_refresh_all_out w st)
    · rw [hout, if_neg hne, List.countP_append,
        countP_isResponse_eq_zero w.now pushes hp]
      simp [isResponse, reply, List.countP_cons]
  · intro m hm hresp
    rcases mem_handle_command_out w fs st msg m hm with ⟨r, e, rfl⟩ | ⟨p, rfl⟩
    · exact ⟨r, e, rfl⟩
    · simp [isResponse, push_state] at hresp

/-- C4 witness: at concrete inputs, refresh yields zero responses and
ping yields one. -/
theorem command_response_correlation_witness :
    (handle_command natWorld fs0 st0
        { id := some "9", action := some "refresh" }).2.2.countP isResponse = 0 ∧
    (handle_command natWorld fs0 st0
        { id := some "8", action := some "ping" }).2.2.countP isResponse = 1 := by
  constructor
  · have h := (command_response_correlation natWorld fs0 st0
      { id := some "9", action := some "refresh" }).1
    simpa using h
  · have h := (command_response_correlation natWorld fs0 st0
      { id := some "8", action := some "ping" }).1
    simpa using h

/-- C5: an unforced resource tick publishes nothing and changes nothing
while the elapsed time since the last resource publish is below the
minimum interval (60 time-units in low-frequency mode, 5 in
high-frequency mode), regardless of what the sampler would read; a
forced tick always publishes the fresh sample. -/
theorem on_resource_tick_interval_gate (w : World σ) (st : AgentSt σ) :
    ((st.resource_monitoring_high_freq = false ∧ w.now - st.last_resource_push < 60) →
        on_resource_tick w false st = (st, [])) ∧
    ((st.resource_monitoring_high_freq = true ∧ w.now - st.last_resource_push < 5) →
        on_resource_tick w false st = (st, [])) ∧
    (on_resource_tick w true st).2 =
      [push_state w.now "SYNC_PARTIAL" (.syncResources w.get_sys_resources)] := by
  refine ⟨?_, ?_, ?_⟩
  · rintro ⟨h1, h2⟩
    by_cases hm : st.monitoring_enabled <;> simp [on_resource_tick, h1, h2, hm]
  · rintro ⟨h1, h2⟩
    by_cases hm : st.monitoring_enabled <;> simp [on_resource_tick, h1, h2, hm]
  · simp [on_resource_tick]

/-- C5 witness: 10 time-units after the last publish, with a different
cpu value on offer, the unforced tick stays silent in low-frequency
mode. -/
theorem on_resource_tick_interval_gate_witness :
    on_resource_tick natWorld false st5 = (st5, []) ∧
    st5.last_resources ≠ some natWorld.get_sys_resources :=
  ⟨(on_resource_tick_interval_gate natWorld st5).1 ⟨by decide, by decide⟩, by decide⟩

/-- C6 counterexample: with monitoring enabled and an unchanged
resources sample, activating setResourceMode publishes nothing, and the
next unforced tick publishes nothing either: no immediate publish of
the resources domain is forced. -/
theorem set_resource_mode_no_publish_cex :
    (handle_command natWorld fs0 st6 setModeMsg).2.2.countP mentionsResources = 0 ∧
    (on_resource_tick natWorld false (handle_command natWorld fs0 st6 setModeMsg).1).2
      = [] := by decide

/-- C6 (amended): setResourceMode with active true switches the sampler
to the high-frequency interval and zeroes the last-publish timestamp,
so the next tick passes the interval gate; that tick then publishes
exactly when monitoring is enabled and the change test passes — the
command itself emits only its ok reply, no resources envelope. -/
theorem set_resource_mode_activates [DecidableEq σ] (w : World σ) (fs : FS)
    (st : AgentSt σ) (pl : CmdPayload) (i : Option String)
    (h : pl.active = some true) :
    (handle_command w fs st
        { id := i, action := some "setResourceMode", payload := pl }).1.resource_monitoring_high_freq
      = true ∧
    (handle_command w fs st
        { id := i, action := some "setResourceMode", payload := pl }).1.last_resource_push = 0 ∧
    (handle_command w fs st
        { id := i, action := some "setResourceMode", payload := pl }).2.2
      = [reply i (some (.str "ok")) none] ∧
    (∀ w' : World σ, 5 ≤ w'.now → st.monitoring_enabled = true →
      resources_changed w'.get_sys_resources st.last_resources = true →
      (on_resource_tick w' false
          (handle_command w fs st
            { id := i, action := some "setResourceMode", payload := pl }).1).2
        = [push_state w'.now "SYNC_PARTIAL" (.syncResources w'.get_sys_resources)]) := by
  have hred : handle_command w fs st
      { id := i, action := some "setResourceMode", payload := pl }
      = ({ st with resource_monitoring_high_freq := true, last_resource_push := 0 },
         fs, [reply i (some (.str "ok")) none]) := by
    simp [handle_command, h]
  refine ⟨by rw [hred], by rw [hred], by rw [hred], ?_⟩
  intro w' h5 hm hch
  rw [hred]
  simp [on_resource_tick, hm, hch, not_lt.mpr h5]

/-- C6 witness: with monitoring enabled and no sample published yet,
the activation is followed by a publishing tick. -/
theorem set_resource_mode_activates_witness :
    (on_resource_tick natWorld false
        (handle_command natWorld fs0 st6hf setModeMsg).1).2
      = [push_state natWorld.now "SYNC_PARTIAL" (.syncResources natWorld.get_sys_resources)] :=
  (set_resource_mode_activates natWorld fs0 st6hf { active := some true }
      (some "m1") rfl).2.2.2 natWorld (by decide) rfl rfl

/-- C7: in local mode a timeout is reported as a raised TimeoutError,
distinct from every returned triple; a missing binary returns the
triple with exit code 127 and a diagnostic, and a completed command —
including a non-zero exit, with or without check — returns its
(stdout, stderr, exitCode) triple rather than raising. -/
theorem execute_local_error_modes (command : List String) (timeout : Option ℚ)
    (stdout stderr : String) (code : Int) :
    execute_local command timeout (.completed stdout stderr code)
        = .ok (stdout.trim, stderr.trim, code) ∧
    execute_local command timeout .fileNotFound
        = .ok ("", "Binary not found: " ++ command.headD "", 127) ∧
    (∀ r : String × String × Int, execute_local command timeout .timedOut ≠ .ok r) ∧
    (∃ e, execute_local command timeout .timedOut = .error e) :=
  ⟨rfl, rfl, fun r h => by simp [execute_local] at h, ⟨_, rfl⟩⟩

/-- C7 witness: the three outcomes at a concrete command line. -/
theorem execute_local_error_modes_witness :
    execute_local ["podman", "ps"] (some 20) (.completed " out " "" 3)
        = .ok (" out ".trim, "".trim, 3) ∧
    execute_local ["podman", "ps"] (some 20) .fileNotFound
        = .ok ("", "Binary not found: " ++ ["podman", "ps"].headD "", 127) ∧
    execute_local ["podman", "ps"] (some 20) .timedOut ≠ .ok ("", "", 0) :=
  ⟨(execute_local_error_modes ["podman", "ps"] (some 20) " out " "" 3).1,
   (execute_local_error_modes ["podman", "ps"] (some 20) "" "" 0).2.1,
   (execute_local_error_modes ["podman", "ps"] (some 20) "" "" 0).2.2.1 ("", "", 0)⟩

/-- C8 counterexample: on a file-change rescan with the freshly fetched
proxy snapshot structurally equal to the stored one, no envelope
containing the proxy domain is emitted. -/
theorem file_change_proxy_unchanged_cex :
    natWorld.fetch_proxy_routes = st8.proxy ∧
    (process_file_changes natWorld st8 9).2.countP (mentionsDomain "proxy") = 0 := by
  decide

/-- C8 (amended): the file-change rescan pushes the files domain
unconditionally, but services and proxy keep the change-detection
discipline: the proxy domain is pushed exactly when the freshly fetched
snapshot differs from the stored one. -/
theorem process_file_changes_proxy_gated [DecidableEq σ] (w : World σ)
    (st : AgentSt σ) (nf : σ) :
    (process_file_changes w st nf).1.files = nf ∧
    (process_file_changes w st nf).2.countP (mentionsDomain "files") = 1 ∧
    (w.fetch_proxy_routes = st.proxy →
      (process_file_changes w st nf).1.proxy = st.proxy ∧
      (process_file_changes w st nf).2.countP (mentionsDomain "proxy") = 0) ∧
    (w.fetch_proxy_routes ≠ st.proxy →
      (process_file_changes w st nf).1.proxy = w.fetch_proxy_routes ∧
      (process_file_changes w st nf).2.countP (mentionsDomain "proxy") = 1) := by
  by_cases hs : w.fetch_services = st.services <;>
    by_cases hp : w.fetch_proxy_routes = st.proxy <;>
      simp [process_file_changes, hs, hp, mentionsDomain, push_state,
        List.countP_append, List.countP_cons]

/-- C8 witness: a changed proxy snapshot is pushed exactly once by the
file-change rescan. -/
theorem process_file_changes_proxy_gated_witness :
    (process_file_changes natWorld st0 9).2.countP (mentionsDomain "proxy") = 1 :=
  ((process_file_changes_proxy_gated natWorld st0 9).2.2.2 (by decide)).2

/-- C9: write_file on a nonempty path with a parent component that is
not itself an existing directory creates the missing parent
directories, stores the content, and replies ok with no error;
read_file on a nonexistent path replies with an error mentioning the
words not found; neither raises out of the handler. -/
theorem file_command_handling [DecidableEq σ] (w : World σ) (fs : FS) (st : AgentSt σ)
    (i : Option String) (p c q : String)
    (hp : p ≠ "") (hd : dirname (expanduser fs.home p) ≠ "")
    (hnd : ¬ expanduser fs.home p ∈ fs.dirs)
    (hq : q ≠ "") (hqe : fs.pathExists (expanduser fs.home q) = false) :
    ((handle_command w fs st
        { id := i, action := some "write_file",
          payload := { path := some p, content := some c } }).2.2
      = [reply i (some (.str "ok")) none]) ∧
    ((handle_command w fs st
        { id := i, action := some "write_file",
          payload := { path := some p, content := some c } }).2.1.lookupFile
        (expanduser fs.home p) = some c) ∧
    (dirname (expanduser fs.home p)
      ∈ (handle_command w fs st
          { id := i, action := some "write_file",
            payload := { path := some p, content := some c } }).2.1.dirs) ∧
    ((handle_command w fs st
        { id := i, action := some "read_file",
          payload := { path := some q } }).2.2
      = [reply i none (some ("File not found: " ++ q))]) ∧
    containsSubstr ("File not found: " ++ q) "not found" = true := by
  have hred : handle_command w fs st
      { id := i, action := some "write_file",
        payload := { path := some p, content := some c } }
      = (st, (fs.makedirs (dirname (expanduser fs.home p))).writeFileAt
          (expanduser fs.home p) c, [reply i (some (.str "ok")) none]) := by
    simp [handle_command, hp, hd, hnd]
  have hred2 : handle_command w fs st
      { id := i, action := some "read_file", payload := { path := some q } }
      = (st, fs, [reply i none (some ("File not found: " ++ q))]) := by
    simp [handle_command, hq, hqe]
  refine ⟨by rw [hred], ?_, ?_, by rw [hred2], not_found_substring q⟩
  · rw [hred]
    exact lookupFile_writeFileAt _ _ _
  · rw [hred]
    show dirname (expanduser fs.home p)
        ∈ ((fs.makedirs (dirname (expanduser fs.home p))).writeFileAt
            (expanduser fs.home p) c).dirs
    rw [dirs_writeFileAt]
    exact mem_dirs_makedirs fs _ hd

/-- C9 witness: writing a config file under the tilde shorthand into a
missing directory of the concrete filesystem, then reading a missing
path. -/
theorem file_command_handling_witness :
    ((handle_command natWorld fs0 st0
        { id := some "w1", action := some "write_file",
          payload := { path := some "~/cfg/app.conf", content := some "hello" } }).2.1.lookupFile
        (expanduser fs0.home "~/cfg/app.conf") = some "hello") ∧
    ((handle_command natWorld fs0 st0
        { id := some "w1", action := some "read_file",
          payload := { path := some "/missing/file" } }).2.2
      = [reply (some "w1") none (some ("File not found: " ++ "/missing/file"))]) :=
  ⟨(file_command_handling natWorld fs0 st0 (some "w1") "~/cfg/app.conf" "hello"
      "/missing/file" (by decide) (by decide) (by decide) (by decide) (by decide)).2.1,
   (file_command_handling natWorld fs0 st0 (some "w1") "~/cfg/app.conf" "hello"
      "/missing/file" (by decide) (by decide) (by decide) (by decide) (by decide)).2.2.2.1⟩

/-- Membership in a stable insertion. -/
theorem mem_insertSortedBy {α : Type} (lt : α → α → Bool) (x y : α) (l : List α) :
    y ∈ insertSortedBy lt x l ↔ y = x ∨ y ∈ l := by
  induction l with
  | nil => simp [insertSortedBy]
  | cons a t ih =>
    unfold insertSortedBy
    split_ifs with h
    · simp only [List.mem_cons]
      try tauto
    · simp only [List.mem_cons, ih]
      try tauto

/-- The stable sort preserves membership. -/
theorem mem_sortByKey {α : Type} (lt : α → α → Bool) (l : List α) (y : α) :
    y ∈ sortByKey lt l ↔ y ∈ l := by
  suffices h : ∀ acc : List α,
      y ∈ List.foldl (fun acc x => insertSortedBy lt x acc) acc l ↔ y ∈ acc ∨ y ∈ l by
    simpa [sortByKey] using h []
  induction l with
  | nil => simp
  | cons a t ih =>
    intro acc
    simp only [List.foldl_cons, ih, mem_insertSortedBy, List.mem_cons]
    tauto

/-- The cons equation of the fetch loop. -/
theorem fetch_containers_loop_cons (hm : Int → List DetPort) (ds : Int → List Int)
    (pn : String → Option String) (nm : String → Option String)
    (c : RawContainer) (rest : List RawContainer) :
    fetch_containers_loop hm ds pn nm (c :: rest)
      = match enrich_one hm ds pn nm c with
        | .error e => .error e
        | .ok r =>
          match fetch_containers_loop hm ds pn nm rest with
          | .error e => .error e
          | .ok tail =>
            match r with
            | some e => .ok (e :: tail)
            | none => .ok tail := rfl

/-- An infra container is skipped by the loop body. -/
theorem enrich_one_infra (hm : Int → List DetPort) (ds : Int → List Int)
    (pn : String → Option String) (nm : String → Option String)
    (c : RawContainer) (h : isInfraContainer c = true) :
    enrich_one hm ds pn nm c = .ok none := by
  unfold enrich_one
  simp [h]

/-- A record the loop body emits never carries the infra flag. -/
theorem enrich_one_isInfra_false (hm : Int → List DetPort) (ds : Int → List Int)
    (pn : String → Option String) (nm : String → Option String)
    (c : RawContainer) (e : EnrichedContainer)
    (h : enrich_one hm ds pn nm c = .ok (some e)) : e.isInfra = false := by
  unfold enrich_one at h
  by_cases hi : isInfraContainer c
  · simp [hi] at h
  · simp only [hi, Bool.false_eq_true, if_false] at h
    split at h
    · simp at h
    · simp only [Except.ok.injEq, Option.some.injEq] at h
      rw [← h]
      try simpa using hi

/-- Skipping infra containers inside the loop is the same as filtering
them away beforehand. -/
theorem fetch_containers_loop_filter (hm : Int → List DetPort) (ds : Int → List Int)
    (pn : String → Option String) (nm : String → Option String)
    (raw : List RawContainer) :
    fetch_containers_loop hm ds pn nm raw
      = fetch_containers_loop hm ds pn nm
          (raw.filter fun c => ¬ isInfraContainer c) := by
  induction raw with
  | nil => rfl
  | cons c rest ih =>
    by_cases hi : isInfraContainer c
    · have hfil : (c :: rest).filter (fun c => ¬ isInfraContainer c)
          = rest.filter (fun c => ¬ isInfraContainer c) := by
        simp [List.filter_cons, hi]
      have hskip : fetch_containers_loop hm ds pn nm (c :: rest)
          = fetch_containers_loop hm ds pn nm rest := by
        rw [fetch_containers_loop_cons, enrich_one_infra hm ds pn nm c hi]
        cases fetch_containers_loop hm ds pn nm rest <;> rfl
      rw [hskip, hfil, ← ih]
    · have hfil : (c :: rest).filter (fun c => ¬ isInfraContainer c)
          = c :: rest.filter (fun c => ¬ isInfraContainer c) := by
        simp [List.filter_cons, hi]
      rw [hfil, fetch_containers_loop_cons, fetch_containers_loop_cons, ← ih]

/-- Every record an ok run of the loop returns has isInfra false. -/
theorem fetch_containers_loop_mem (hm : Int → List DetPort) (ds : Int → List Int)
    (pn : String → Option String) (nm : String → Option String)
    (raw : List RawContainer) (l : List EnrichedContainer)
    (h : fetch_containers_loop hm ds pn nm raw = .ok l) :
    ∀ e ∈ l, e.isInfra = false := by
  induction raw generalizing l with
  | nil =>
    simp only [fetch_containers_loop, Except.ok.injEq] at h
    subst h
    simp
  | cons c rest ih =>
    rw [fetch_containers_loop_cons] at h
    cases he : enrich_one hm ds pn nm c with
    | error e0 => rw [he] at h; simp at h
    | ok r =>
      rw [he] at h
      cases hrest : fetch_containers_loop hm ds pn nm rest with
      | error e0 => rw [hrest] at h; simp at h
      | ok tail =>
        rw [hrest] at h
        cases r with
        | none =>
          simp only [Except.ok.injEq] at h
          subst h
          exact ih tail hrest
        | some e1 =>
          simp only [Except.ok.injEq] at h
          subst h
          intro e he2
          rcases List.mem_cons.mp he2 with rfl | hmem
          · exact enrich_one_isInfra_false hm ds pn nm c e he
          · exact ih tail hrest e hmem

/-- C10: fetch_containers never returns an infra container: filtering
the infra records (IsInfra flag, -infra or _infra name suffix, or a
podman-pause image) out of the listing beforehand changes nothing, and
every record of a successful snapshot has isInfra false, so no such
container can reach the state store, a listContainers reply or a
SYNC_PARTIAL envelope. -/
theorem fetch_containers_excludes_infra (hm : Int → List DetPort)
    (ds : Int → List Int) (pn : String → Option String)
    (nm : String → Option String) (raw : List RawContainer) :
    (fetch_containers hm ds pn nm raw
        = fetch_containers hm ds pn nm (raw.filter fun c => ¬ isInfraContainer c)) ∧
    (∀ l, fetch_containers hm ds pn nm raw = .ok l → ∀ e ∈ l, e.isInfra = false) := by
  constructor
  · unfold fetch_containers
    rw [fetch_containers_loop_filter]
  · intro l h
    unfold fetch_containers at h
    cases hloop : fetch_containers_loop hm ds pn nm raw with
    | error e0 => rw [hloop] at h; simp at h
    | ok l0 =>
      rw [hloop] at h
      simp only [Except.ok.injEq] at h
      intro e he
      rw [← h] at he
      rw [mem_sortByKey] at he
      exact fetch_containers_loop_mem hm ds pn nm raw l0 hloop e he

/-- C10 witness: on a listing with one container per infra criterion
and one ordinary container, the filtered and unfiltered runs agree, the
three infra records are recognised, and only the ordinary container
survives into the snapshot. -/
theorem fetch_containers_excludes_infra_witness :
    (fetch_containers noPorts noKids noStr noStr
        [rawInfraByFlag, rawInfraByName, rawInfraByImage, rawNormal]
      = fetch_containers noPorts noKids noStr noStr
          ([rawInfraByFlag, rawInfraByName, rawInfraByImage, rawNormal].filter
            fun c => ¬ isInfraContainer c)) ∧
    isInfraContainer rawInfraByFlag = true ∧
    isInfraContainer rawInfraByName = true ∧
    isInfraContainer rawInfraByImage = true ∧
    isInfraContainer rawNormal = false ∧
    (fetch_containers noPorts noKids noStr noStr
        [rawInfraByFlag, rawInfraByName, rawInfraByImage, rawNormal]).toOption.map
          (fun l => l.map fun e => e.id)
      = some [some "ddd"] :=
  ⟨(fetch_containers_excludes_infra noPorts noKids noStr noStr
      [rawInfraByFlag, rawInfraByName, rawInfraByImage, rawNormal]).1,
   by decide, by decide, by decide, by decide, by decide⟩

end ServiceBay
